import Mathlib

/-
Shallow embedding of the fractional-ownership NFT ledger in
src/pallets/base-nft/src/lib.rs (pallet `module`, impl block of `Pallet`).

Modelling choices:
  * AccountId, ClassId, TokenId are Nat; ClassId / TokenId / total_issuance
    live in u64 range, so their checked_add by one fails exactly when the
    value is already 2^64 - 1 (MAXU64); checked_sub by one fails exactly at 0.
  * percent_owned is the u8 field of TokenByOwnerData; the code performs no
    arithmetic on it in transfer (only a comparison) and only ever stores the
    literal 100 in mint, so it is modelled as Nat.
  * Each storage table is an association list keyed by the storage key.
    `alookup` is first-match lookup (storage get), `ainsert` replaces the
    first matching entry or appends (storage insert), `aremove` deletes all
    entries of a key (storage remove).
  * Substrate try_mutate writes the mutated value back only when the closure
    returns Ok; on Err nothing is written.  Every error path of the five
    operations therefore leaves the stores untouched, which the functional
    embedding models by returning `Except.error` carrying no state; the
    `applyX` wrappers make the rollback-on-error state explicit.
  * ValueQuery storages (NextTokenId, TokensByOwner) read a default (0) for
    absent keys, and a try_mutate that returns Ok writes the value back even
    when the key was previously absent — this write-back of the default is
    kept, because `is_owner` observes key presence via contains_key.
  * The feature flag `disable-tokens-by-owner` is off (the default build,
    the one the unit tests compile), so the TokensByOwner writes in mint /
    burn and the contains_key implementation of is_owner are included.
-/

namespace BaseNft

/-- Error enum of the pallet (src/pallets/base-nft/src/lib.rs lines 100-119).
Note that the enum has no WrongArguments variant. -/
inductive Error where
  | NoAvailableClassId
  | NoAvailableTokenId
  | TokenNotFound
  | ClassNotFound
  | NoPermission
  | NumOverflow
  | CannotDestroyClass
  | SenderInsufficientPercentage
deriving DecidableEq

/-- ClassInfo struct (lines 38-48): metadata, total_issuance, owner, data. -/
structure ClassInfo where
  metadata : List Nat
  total_issuance : Nat
  owner : Nat
  data : Unit
deriving DecidableEq

/-- TokenInfo struct (lines 51-59): metadata, owners list, data. -/
structure TokenInfo where
  metadata : List Nat
  owners : List Nat
  data : Unit
deriving DecidableEq

/-- First-match lookup in an association list: storage `get` returning
Option (OptionQuery view). -/
def alookup {α β : Type} [DecidableEq α] : List (α × β) → α → Option β
  | [], _ => none
  | (k, v) :: l, a => if a = k then some v else alookup l a

/-- Replace the first entry of key `a` by `(a, b)`, or append `(a, b)` if the
key is absent: storage `insert`. -/
def ainsert {α β : Type} [DecidableEq α] : List (α × β) → α → β → List (α × β)
  | [], a, b => [(a, b)]
  | (k, v) :: l, a, b => if a = k then (a, b) :: l else (k, v) :: ainsert l a b

/-- Delete every entry of key `a`: storage `remove`. -/
def aremove {α β : Type} [DecidableEq α] : List (α × β) → α → List (α × β)
  | [], _ => []
  | (k, v) :: l, a => if a = k then aremove l a else (k, v) :: aremove l a

/-- Largest u64 value; the id and issuance counters are modelled in u64. -/
def MAXU64 : Nat := 2 ^ 64 - 1

/-- checked_add(&One::one()) on a u64-ranged counter. -/
def checkedAdd1 (n : Nat) : Option Nat :=
  if n + 1 ≤ MAXU64 then some (n + 1) else none

/-- checked_sub(&One::one()) on a u64-ranged counter. -/
def checkedSub1 (n : Nat) : Option Nat :=
  if 1 ≤ n then some (n - 1) else none

/-- The five storage tables of the pallet (lines 121-166). -/
structure NftState where
  nextClassId : Nat
  nextTokenId : List (Nat × Nat)
  classes : List (Nat × ClassInfo)
  tokens : List ((Nat × Nat) × TokenInfo)
  tokensByOwner : List ((Nat × (Nat × Nat)) × Nat)
deriving DecidableEq

/-- Pallet::create_class (lines 215-237): advance NextClassId with checked
add (NoAvailableClassId on overflow), insert a ClassInfo with issuance 0,
return the previous counter value as the new class id. -/
def create_class (s : NftState) (owner : Nat) (metadata : List Nat)
    (data : Unit) : Except Error (NftState × Nat) :=
  match checkedAdd1 s.nextClassId with
  | none => .error .NoAvailableClassId
  | some nid =>
    let class_id := s.nextClassId
    .ok ({ s with
            nextClassId := nid,
            classes := ainsert s.classes class_id
              { metadata := metadata, total_issuance := 0,
                owner := owner, data := data } },
         class_id)

/-- Pallet::transfer (lines 240-314), translated exactly as written.  Inside
Tokens::try_mutate: TokenNotFound if the token is absent; NoPermission if
`fr` is not in the owners list; early Ok (write-back of the unchanged info)
if `fr = to`; otherwise `to` is pushed onto the owners list when absent, and
the nested TokensByOwner::try_mutate on the sender — whose Result the source
discards with a bare semicolon — checks percent_owned > percentage with a
strict comparison; when that ensure passes, the inner recipient try_mutate
returns Ok and so writes the recipient value (the default 0 when the key was
absent) back, and the sender try_mutate writes the unchanged sender value
back; when the ensure fails, the error is swallowed and nothing of
TokensByOwner is written.  The outer try_mutate then commits the (possibly
extended) owners list and returns Ok.  No percentage is ever added or
subtracted anywhere; the commented-out lines 283-310 are dead code. -/
def transfer (s : NftState) (fr toAcc : Nat) (token : Nat × Nat)
    (percentage : Nat) : Except Error NftState :=
  match alookup s.tokens token with
  | none => .error .TokenNotFound
  | some info =>
    if fr ∈ info.owners then
      if fr = toAcc then
        .ok { s with tokens := ainsert s.tokens token info }
      else
        let info1 := if toAcc ∈ info.owners then info
          else { info with owners := info.owners ++ [toAcc] }
        let senderVal := (alookup s.tokensByOwner (fr, token)).getD 0
        let tbo1 :=
          if senderVal > percentage then
            let recipVal := (alookup s.tokensByOwner (toAcc, token)).getD 0
            ainsert (ainsert s.tokensByOwner (toAcc, token) recipVal)
              (fr, token) senderVal
          else s.tokensByOwner
        .ok { s with tokens := ainsert s.tokens token info1,
                     tokensByOwner := tbo1 }
    else .error .NoPermission

/-- Pallet::mint (lines 317-355): inside NextTokenId::try_mutate the current
counter is the new token id and the counter is advanced with checked add
(NoAvailableTokenId on overflow); Classes::try_mutate increments the class
issuance (ClassNotFound / NumOverflow), then the TokenInfo with owners
[owner] and the TokensByOwner record percent_owned = 100 are inserted; the
outer try_mutate commits the advanced counter only on Ok. -/
def mint (s : NftState) (owner class_id : Nat) (metadata : List Nat)
    (data : Unit) : Except Error (NftState × Nat) :=
  let token_id := (alookup s.nextTokenId class_id).getD 0
  match checkedAdd1 token_id with
  | none => .error .NoAvailableTokenId
  | some ntid =>
    match alookup s.classes class_id with
    | none => .error .ClassNotFound
    | some c =>
      match checkedAdd1 c.total_issuance with
      | none => .error .NumOverflow
      | some niss =>
        .ok ({ s with
                classes := ainsert s.classes class_id
                  { c with total_issuance := niss },
                tokens := ainsert s.tokens (class_id, token_id)
                  { metadata := metadata, owners := [owner], data := data },
                tokensByOwner := ainsert s.tokensByOwner
                  (owner, (class_id, token_id)) 100,
                nextTokenId := ainsert s.nextTokenId class_id ntid },
             token_id)

/-- Pallet::burn (lines 358-380): Tokens::try_mutate_exists takes the token
(TokenNotFound if absent), requires the caller to be in the owners list
(NoPermission), decrements the class issuance with checked sub
(ClassNotFound / NumOverflow), and removes only the TokensByOwner record of
the calling owner; on Ok the taken token entry is committed as removed. -/
def burn (s : NftState) (owner : Nat) (token : Nat × Nat) :
    Except Error NftState :=
  match alookup s.tokens token with
  | none => .error .TokenNotFound
  | some t =>
    if owner ∈ t.owners then
      match alookup s.classes token.fst with
      | none => .error .ClassNotFound
      | some c =>
        match checkedSub1 c.total_issuance with
        | none => .error .NumOverflow
        | some niss =>
          .ok { s with
                 tokens := aremove s.tokens token,
                 classes := ainsert s.classes token.fst
                   { c with total_issuance := niss },
                 tokensByOwner := aremove s.tokensByOwner (owner, token) }
    else .error .NoPermission

/-- Pallet::destroy_class (lines 383-396): Classes::try_mutate_exists takes
the class (ClassNotFound), requires the caller to equal the stored owner
(NoPermission) and the issuance to be zero (CannotDestroyClass), removes the
NextTokenId entry of the class and commits the class entry as removed. -/
def destroy_class (s : NftState) (owner class_id : Nat) :
    Except Error NftState :=
  match alookup s.classes class_id with
  | none => .error .ClassNotFound
  | some info =>
    if info.owner = owner then
      if info.total_issuance = 0 then
        .ok { s with
               classes := aremove s.classes class_id,
               nextTokenId := aremove s.nextTokenId class_id }
      else .error .CannotDestroyClass
    else .error .NoPermission

/-- Pallet::is_owner (lines 398-404), default build: a single
TokensByOwner::contains_key lookup, true iff an entry is present for
(account, token) whatever its percent_owned. -/
def is_owner (s : NftState) (account : Nat) (token : Nat × Nat) : Bool :=
  (alookup s.tokensByOwner (account, token)).isSome

/-- Host-side view of one transfer call: the state after the call, which is
the returned state on Ok and the untouched pre-state on Err (Substrate
try_mutate rollback). -/
def applyTransfer (s : NftState) (fr toAcc : Nat) (token : Nat × Nat)
    (percentage : Nat) : NftState :=
  match transfer s fr toAcc token percentage with
  | .ok s2 => s2
  | .error _ => s

/-- Host-side view of one mint call: post-state on Ok, pre-state on Err. -/
def applyMint (s : NftState) (owner class_id : Nat) (metadata : List Nat)
    (data : Unit) : NftState :=
  match mint s owner class_id metadata data with
  | .ok (s2, _) => s2
  | .error _ => s

/-- Dual-index consistency invariant as stated by the spec: for every live
token, an account is in the owners list of the token exactly when it has a
present TokensByOwner record of nonzero percent_owned for that token, and
the percentages of the owners sum to exactly 100. -/
def invariantHolds (s : NftState) : Prop :=
  ∀ tok info, alookup s.tokens tok = some info →
    (∀ a : Nat, a ∈ info.owners ↔
        (alookup s.tokensByOwner (a, tok)).getD 0 ≠ 0) ∧
    (info.owners.map (fun a => (alookup s.tokensByOwner (a, tok)).getD 0)).sum
      = 100

/-- The empty genesis state: all tables empty, counters zero. -/
def emptyState : NftState :=
  { nextClassId := 0, nextTokenId := [], classes := [],
    tokens := [], tokensByOwner := [] }

/-- State after create_class(owner := 0) on the empty state. -/
def statePostClass : NftState :=
  { nextClassId := 1, nextTokenId := [],
    classes := [(0, { metadata := [], total_issuance := 0,
                      owner := 0, data := () })],
    tokens := [], tokensByOwner := [] }

/-- State after mint(owner := 1, class 0) on statePostClass: token (0,0)
with owners [1] and the record (1,(0,0)) at 100 percent. -/
def statePostMint : NftState :=
  { nextClassId := 1, nextTokenId := [(0, 1)],
    classes := [(0, { metadata := [], total_issuance := 1,
                      owner := 0, data := () })],
    tokens := [((0, 0), { metadata := [], owners := [1], data := () })],
    tokensByOwner := [((1, (0, 0)), 100)] }

/-- State the code produces for transfer(1, 0, (0,0), 20) from
statePostMint: account 0 pushed onto the owners list, sender record written
back unchanged at 100, recipient record materialised at the default 0. -/
def stateAfterT20 : NftState :=
  { nextClassId := 1, nextTokenId := [(0, 1)],
    classes := [(0, { metadata := [], total_issuance := 1,
                      owner := 0, data := () })],
    tokens := [((0, 0), { metadata := [], owners := [1, 0], data := () })],
    tokensByOwner := [((1, (0, 0)), 100), ((0, (0, 0)), 0)] }

/-- State the code produces for transfer(1, 0, (0,0), 110) from
statePostMint: the swallowed SenderInsufficientPercentage leaves
TokensByOwner alone but the owners push is still committed. -/
def stateAfterT110 : NftState :=
  { nextClassId := 1, nextTokenId := [(0, 1)],
    classes := [(0, { metadata := [], total_issuance := 1,
                      owner := 0, data := () })],
    tokens := [((0, 0), { metadata := [], owners := [1, 0], data := () })],
    tokensByOwner := [((1, (0, 0)), 100)] }

/-- A token (0,0) held half-and-half by accounts 0 and 1, in a class of
issuance 1 owned by account 0. -/
def twoOwnerState : NftState :=
  { nextClassId := 1, nextTokenId := [(0, 1)],
    classes := [(0, { metadata := [], total_issuance := 1,
                      owner := 0, data := () })],
    tokens := [((0, 0), { metadata := [], owners := [0, 1], data := () })],
    tokensByOwner := [((0, (0, 0)), 50), ((1, (0, 0)), 50)] }

/-- A state holding a stored zero-percent TokensByOwner record for account 0
on token (0,0), while only account 1 is in the owners list. -/
def zeroRecState : NftState :=
  { nextClassId := 1, nextTokenId := [(0, 1)],
    classes := [(0, { metadata := [], total_issuance := 1,
                      owner := 0, data := () })],
    tokens := [((0, 0), { metadata := [], owners := [1], data := () })],
    tokensByOwner := [((1, (0, 0)), 100), ((0, (0, 0)), 0)] }

/-- Looking up the key just inserted yields the inserted value. -/
theorem alookup_ainsert_self {α β : Type} [DecidableEq α]
    (l : List (α × β)) (k : α) (v : β) :
    alookup (ainsert l k v) k = some v := by
  induction l with
  | nil => simp [ainsert, alookup]
  | cons kv l ih =>
    obtain ⟨k1, v1⟩ := kv
    by_cases hk : k = k1
    · subst hk
      simp [ainsert, alookup]
    · simp [ainsert, alookup, hk, ih]

/-- Inserting at one key leaves lookups at other keys unchanged. -/
theorem alookup_ainsert_ne {α β : Type} [DecidableEq α]
    (l : List (α × β)) (k k2 : α) (v : β) (h : k2 ≠ k) :
    alookup (ainsert l k v) k2 = alookup l k2 := by
  induction l with
  | nil => simp [ainsert, alookup, h]
  | cons kv l ih =>
    obtain ⟨k1, v1⟩ := kv
    by_cases hk : k = k1
    · subst hk
      simp [ainsert, alookup, h]
    · by_cases hk2 : k2 = k1
      · simp [ainsert, alookup, hk, hk2]
      · simp [ainsert, alookup, hk, hk2, ih]

/-- Writing back the value a lookup returned leaves the list unchanged. -/
theorem ainsert_lookup_self {α β : Type} [DecidableEq α]
    (l : List (α × β)) (k : α) (v : β) (h : alookup l k = some v) :
    ainsert l k v = l := by
  induction l with
  | nil => simp [alookup] at h
  | cons kv l ih =>
    obtain ⟨k1, v1⟩ := kv
    by_cases hk : k = k1
    · subst hk
      simp [alookup] at h
      subst h
      simp [ainsert]
    · simp [alookup, hk] at h
      simp [ainsert, hk, ih h]

/-- Removing one key leaves lookups at other keys unchanged. -/
theorem alookup_aremove_ne {α β : Type} [DecidableEq α]
    (l : List (α × β)) (k k2 : α) (h : k2 ≠ k) :
    alookup (aremove l k) k2 = alookup l k2 := by
  induction l with
  | nil => simp [aremove]
  | cons kv l ih =>
    obtain ⟨k1, v1⟩ := kv
    by_cases hk : k = k1
    · subst hk
      simp [aremove, alookup, h, ih]
    · simp [aremove, alookup, hk, ih]

/-- C1: the dual-index consistency invariant (owners list of each live token
agrees with the set of accounts holding a present nonzero TokensByOwner
record, and the percentages sum to 100) is claimed to be preserved by every
lifecycle operation.  The code violates it: from the empty state,
create_class by account 0, mint to account 1, then
transfer(1, 0, (0,0), 20) returns Ok yet produces a state where account 0 is
in the owners list of token (0,0) while its TokensByOwner record is the
written-back default 0 — the invariant held before the transfer and fails
after it. -/
theorem c1_transfer_breaks_dual_index_invariant :
    create_class emptyState 0 [] () = .ok (statePostClass, 0) ∧
    mint statePostClass 1 0 [] () = .ok (statePostMint, 0) ∧
    invariantHolds statePostMint ∧
    transfer statePostMint 1 0 (0, 0) 20 = .ok stateAfterT20 ∧
    alookup stateAfterT20.tokens (0, 0) =
      some { metadata := [], owners := [1, 0], data := () } ∧
    (0 : Nat) ∈ ([1, 0] : List Nat) ∧
    (alookup stateAfterT20.tokensByOwner (0, (0, 0))).getD 0 = 0 := by
  refine ⟨rfl, rfl, ?_, rfl, rfl, by decide, rfl⟩
  intro tok info h
  by_cases ht : tok = (0, 0)
  · subst ht
    simp [statePostMint, alookup] at h
    subst h
    refine ⟨?_, by rfl⟩
    intro a
    constructor
    · intro ha
      simp at ha
      subst ha
      decide
    · intro hnz
      by_cases ha : a = 1
      · subst ha; simp
      · exfalso
        apply hnz
        simp [statePostMint, alookup, ha]
  · simp [statePostMint, alookup] at h
    exact absurd (by simpa using h.1) ht

/-- C2: the transfer success postcondition claims the sender record is
decremented by the percentage and the recipient record incremented by it.
The code moves no percentage at all: after mint to account 1 (100 percent),
transfer(1, 0, (0,0), 20) returns Ok with the sender still at 100, the
recipient record materialised at 0, and account 0 appended (not
sort-inserted) to the owners list. -/
theorem c2_transfer_moves_no_percentage :
    transfer statePostMint 1 0 (0, 0) 20 = .ok stateAfterT20 ∧
    alookup statePostMint.tokensByOwner (1, (0, 0)) = some 100 ∧
    alookup stateAfterT20.tokensByOwner (1, (0, 0)) = some 100 ∧
    alookup stateAfterT20.tokensByOwner (0, (0, 0)) = some 0 ∧
    alookup stateAfterT20.tokens (0, 0) =
      some { metadata := [], owners := [1, 0], data := () } := by
  exact ⟨rfl, rfl, rfl, rfl, rfl⟩

/-- C4: an insufficient-balance transfer is claimed to fail with
SenderInsufficientPercentage and leave the state unchanged.  In the code the
nested try_mutate that raises that error has its Result discarded, so after
mint to account 1 (100 percent) the call transfer(1, 0, (0,0), 110) returns
Ok, and it commits the owners-list push of account 0 — the state does
change. -/
theorem c4_insufficient_transfer_succeeds_and_mutates :
    alookup statePostMint.tokensByOwner (1, (0, 0)) = some 100 ∧
    alookup statePostMint.tokens (0, 0) =
      some { metadata := [], owners := [1], data := () } ∧
    transfer statePostMint 1 0 (0, 0) 110 = .ok stateAfterT110 ∧
    alookup stateAfterT110.tokens (0, 0) =
      some { metadata := [], owners := [1, 0], data := () } := by
  exact ⟨rfl, rfl, rfl, rfl⟩

/-- C7: a zero-percentage transfer is claimed to fail with WrongArguments.
The Error enum of the code has no WrongArguments variant and transfer never
checks the percentage against zero: after mint to account 1, the call
transfer(1, 0, (0,0), 0) returns Ok (the strict comparison 100 > 0 inside
the discarded try_mutate passes) and even mutates the state exactly as the
20-percent call does. -/
theorem c7_zero_percentage_transfer_accepted :
    transfer statePostMint 1 0 (0, 0) 0 = .ok stateAfterT20 := by
  rfl

/-- C3 counterexample: burn is claimed to remove the TokensByOwner records of
every former owner of the token.  On a token held 50-50 by accounts 0 and 1,
burn called by account 0 succeeds but the record of account 1 survives with
its 50 percent. -/
theorem c3_burn_leaves_other_owners_record :
    alookup twoOwnerState.tokens (0, 0) =
      some { metadata := [], owners := [0, 1], data := () } ∧
    (1 : Nat) ∈ ([0, 1] : List Nat) ∧
    burn twoOwnerState 0 (0, 0) =
      .ok { nextClassId := 1, nextTokenId := [(0, 1)],
            classes := [(0, { metadata := [], total_issuance := 0,
                              owner := 0, data := () })],
            tokens := [],
            tokensByOwner := [((1, (0, 0)), 50)] } ∧
    alookup ([((1, (0, 0)), 50)] : List ((Nat × (Nat × Nat)) × Nat))
      (1, (0, 0)) = some 50 := by
  exact ⟨rfl, by decide, rfl, rfl⟩

/-- C3 amended: for every state in which the token exists, the caller is a
current owner of it, the class of the token exists and its total_issuance is
nonzero, burn succeeds, removes the Token record, decrements the class
total_issuance by one (underflow-checked, NumOverflow at zero), and removes
only the ownership record of the calling owner — records of other former
owners are left in place. -/
theorem c3_burn_removes_token_and_callers_record
    (s : NftState) (o : Nat) (tok : Nat × Nat) (t : TokenInfo) (c : ClassInfo)
    (ht : alookup s.tokens tok = some t) (ho : o ∈ t.owners)
    (hc : alookup s.classes tok.fst = some c)
    (hi : c.total_issuance ≠ 0) :
    burn s o tok = .ok { s with
      tokens := aremove s.tokens tok,
      classes := ainsert s.classes tok.fst
        { c with total_issuance := c.total_issuance - 1 },
      tokensByOwner := aremove s.tokensByOwner (o, tok) } := by
  have h1 : checkedSub1 c.total_issuance = some (c.total_issuance - 1) := by
    simp [checkedSub1, Nat.one_le_iff_ne_zero.mpr hi]
  simp [burn, ht, ho, hc, h1]

/-- C3 witness: the amended burn theorem applied to the 50-50 state at the
calling owner 0 with all hypotheses discharged concretely. -/
theorem c3_burn_witness :
    burn twoOwnerState 0 (0, 0) =
      .ok { nextClassId := 1, nextTokenId := [(0, 1)],
            classes := [(0, { metadata := [], total_issuance := 0,
                              owner := 0, data := () })],
            tokens := [],
            tokensByOwner := [((1, (0, 0)), 50)] } :=
  c3_burn_removes_token_and_callers_record twoOwnerState 0 (0, 0)
    { metadata := [], owners := [0, 1], data := () }
    { metadata := [], total_issuance := 1, owner := 0, data := () }
    (by rfl) (by decide) (by rfl) (by decide)

/-- C5 counterexample: the claim says a self-transfer succeeds for every
token, but the code checks token existence (and ownership) before the
from = to short-circuit, so a self-transfer of a token that does not exist
fails with TokenNotFound. -/
theorem c5_self_transfer_missing_token_fails :
    transfer emptyState 7 7 (0, 0) 50 = .error .TokenNotFound := by
  rfl

/-- C5 amended: whenever the token exists and the account is one of its
current owners, a self-transfer succeeds and returns the state unchanged,
for every percentage including one exceeding the holding; and every
self-transfer that succeeds leaves the state exactly unchanged (failing
self-transfers, TokenNotFound or NoPermission, change nothing because no
write is committed on error). -/
theorem c5_self_transfer_noop (s : NftState) (a : Nat) (tok : Nat × Nat)
    (p : Nat) :
    (∀ info, alookup s.tokens tok = some info → a ∈ info.owners →
      transfer s a a tok p = .ok s) ∧
    (∀ s2, transfer s a a tok p = .ok s2 → s2 = s) := by
  constructor
  · intro info h hm
    simp [transfer, h, hm, ainsert_lookup_self _ _ _ h]
  · intro s2 h2
    cases hl : alookup s.tokens tok with
    | none => simp [transfer, hl] at h2
    | some info =>
      by_cases hm : a ∈ info.owners
      · simp [transfer, hl, hm] at h2
        subst h2
        simp [ainsert_lookup_self _ _ _ hl]
      · simp [transfer, hl, hm] at h2

/-- C5 witness: the self-transfer theorem at the post-mint state, account 1,
token (0,0) and percentage 110 (more than the 100 held). -/
theorem c5_self_transfer_noop_witness :
    transfer statePostMint 1 1 (0, 0) 110 = .ok statePostMint :=
  (c5_self_transfer_noop statePostMint 1 (0, 0) 110).1
    { metadata := [], owners := [1], data := () } (by rfl) (by decide)

/-- C6: mint is all-or-nothing.  With tid the current NextTokenId of the
class: if the counter cannot advance, NoAvailableTokenId; otherwise if the
class is absent, ClassNotFound; otherwise if the issuance increment
overflows, NumOverflow; and in all three failure cases no store changes (the
post-call state of applyMint is the pre-call state, in particular the
NextTokenId advance is not committed).  When all checks pass, mint returns
tid and commits together the issuance increment, the Token record with
owners exactly [owner], the ownership record (owner, token) = 100, and the
counter advance. -/
theorem c6_mint_all_or_nothing (s : NftState) (o cid : Nat)
    (md : List Nat) :
    (¬ (alookup s.nextTokenId cid).getD 0 + 1 ≤ MAXU64 →
      mint s o cid md () = .error .NoAvailableTokenId) ∧
    ((alookup s.nextTokenId cid).getD 0 + 1 ≤ MAXU64 →
      alookup s.classes cid = none →
      mint s o cid md () = .error .ClassNotFound) ∧
    (∀ c, (alookup s.nextTokenId cid).getD 0 + 1 ≤ MAXU64 →
      alookup s.classes cid = some c →
      ¬ c.total_issuance + 1 ≤ MAXU64 →
      mint s o cid md () = .error .NumOverflow) ∧
    (∀ c, (alookup s.nextTokenId cid).getD 0 + 1 ≤ MAXU64 →
      alookup s.classes cid = some c →
      c.total_issuance + 1 ≤ MAXU64 →
      mint s o cid md () = .ok
        ({ s with
            classes := ainsert s.classes cid
              { c with total_issuance := c.total_issuance + 1 },
            tokens := ainsert s.tokens
              (cid, (alookup s.nextTokenId cid).getD 0)
              { metadata := md, owners := [o], data := () },
            tokensByOwner := ainsert s.tokensByOwner
              (o, (cid, (alookup s.nextTokenId cid).getD 0)) 100,
            nextTokenId := ainsert s.nextTokenId cid
              ((alookup s.nextTokenId cid).getD 0 + 1) },
         (alookup s.nextTokenId cid).getD 0)) ∧
    (∀ e, mint s o cid md () = .error e → applyMint s o cid md () = s) := by
  refine ⟨?_, ?_, ?_, ?_, ?_⟩
  · intro h
    simp [mint, checkedAdd1, h]
  · intro h hc
    simp [mint, checkedAdd1, h, hc]
  · intro c h hc hov
    simp [mint, checkedAdd1, h, hc, hov]
  · intro c h hc hle
    simp [mint, checkedAdd1, h, hc, hle]
  · intro e he
    simp [applyMint, he]

/-- C6 witness: the success case of the mint theorem reproduces the
post-mint state with token id 0, and the ClassNotFound case of a mint into
the absent class 5 commits nothing. -/
theorem c6_mint_witness :
    mint statePostClass 1 0 [] () = .ok (statePostMint, 0) ∧
    mint emptyState 1 5 [] () = .error .ClassNotFound ∧
    applyMint emptyState 1 5 [] () = emptyState := by
  have hok := (c6_mint_all_or_nothing statePostClass 1 0 []).2.2.2.1
    { metadata := [], total_issuance := 0, owner := 0, data := () }
    (by decide) (by rfl) (by decide)
  have herr := (c6_mint_all_or_nothing emptyState 1 5 []).2.1
    (by decide) (by rfl)
  have hroll := (c6_mint_all_or_nothing emptyState 1 5 []).2.2.2.2
    .ClassNotFound herr
  exact ⟨hok, herr, hroll⟩

/-- C8 counterexample: is_owner is claimed to be true exactly for a present
record of nonzero percentage and to coincide with owners-list membership.
In a state holding a stored zero-percent record for account 0 (which the
code itself materialises, see the transfer theorems), is_owner is true for
account 0 although its only record has percent 0 and it is not in the
owners list of the token. -/
theorem c8_is_owner_true_on_zero_record :
    is_owner zeroRecState 0 (0, 0) = true ∧
    alookup zeroRecState.tokensByOwner (0, (0, 0)) = some 0 ∧
    alookup zeroRecState.tokens (0, 0) =
      some { metadata := [], owners := [1], data := () } ∧
    ([1] : List Nat).contains 0 = false := by
  exact ⟨rfl, rfl, rfl, rfl⟩

/-- C8 amended: is_owner(account, token) is a single direct TokensByOwner
lookup and returns true iff a record is present for (account, token),
whatever its percentage; when the stored record for the pair is not a zero
record, this is equivalent to a nonzero record being present. -/
theorem c8_is_owner_presence_lookup (s : NftState) (a : Nat)
    (tok : Nat × Nat) :
    (is_owner s a tok = true ↔
      (alookup s.tokensByOwner (a, tok)).isSome = true) ∧
    (alookup s.tokensByOwner (a, tok) ≠ some 0 →
      (is_owner s a tok = true ↔
        ∃ p, alookup s.tokensByOwner (a, tok) = some p ∧ p ≠ 0)) := by
  constructor
  · exact Iff.rfl
  · intro hz
    cases hl : alookup s.tokensByOwner (a, tok) with
    | none => simp [is_owner, hl]
    | some p =>
      have hp : p ≠ 0 := by
        rintro rfl
        exact hz hl
      simp [is_owner, hl, hp]

/-- C8 witness: the presence characterisation at the post-mint state for the
minting owner, whose record is 100. -/
theorem c8_is_owner_witness :
    is_owner statePostMint 1 (0, 0) = true ∧
    (∃ p, alookup statePostMint.tokensByOwner (1, (0, 0)) = some p ∧
      p ≠ 0) := by
  have h := (c8_is_owner_presence_lookup statePostMint 1 (0, 0)).2 (by decide)
  exact ⟨by rfl, h.mp (by rfl)⟩

/-- C9: destroy_class succeeds iff the class exists, the caller equals its
stored owner and the total_issuance is zero, in which case the Class record
and the NextTokenId entry of the class are removed; otherwise it fails with
ClassNotFound, NoPermission or CannotDestroyClass respectively (checked in
that order), committing nothing. -/
theorem c9_destroy_class_contract (s : NftState) (caller cid : Nat) :
    (alookup s.classes cid = none →
      destroy_class s caller cid = .error .ClassNotFound) ∧
    (∀ info, alookup s.classes cid = some info → info.owner ≠ caller →
      destroy_class s caller cid = .error .NoPermission) ∧
    (∀ info, alookup s.classes cid = some info → info.owner = caller →
      info.total_issuance ≠ 0 →
      destroy_class s caller cid = .error .CannotDestroyClass) ∧
    (∀ info, alookup s.classes cid = some info → info.owner = caller →
      info.total_issuance = 0 →
      destroy_class s caller cid = .ok { s with
        classes := aremove s.classes cid,
        nextTokenId := aremove s.nextTokenId cid }) := by
  refine ⟨?_, ?_, ?_, ?_⟩ <;> intros <;> simp [destroy_class, *]

/-- C9 witness: all four branches of the destroy_class contract at concrete
states — success on the fresh class of issuance 0, CannotDestroyClass after
a mint, NoPermission for a non-owner caller, ClassNotFound on the empty
state. -/
theorem c9_destroy_class_witness :
    destroy_class statePostClass 0 0 =
      .ok { nextClassId := 1, nextTokenId := [], classes := [],
            tokens := [], tokensByOwner := [] } ∧
    destroy_class statePostMint 0 0 = .error .CannotDestroyClass ∧
    destroy_class statePostMint 1 0 = .error .NoPermission ∧
    destroy_class emptyState 0 0 = .error .ClassNotFound := by
  refine ⟨?_, ?_, ?_, ?_⟩
  · exact (c9_destroy_class_contract statePostClass 0 0).2.2.2
      { metadata := [], total_issuance := 0, owner := 0, data := () }
      (by rfl) (by rfl) (by rfl)
  · exact (c9_destroy_class_contract statePostMint 0 0).2.2.1
      { metadata := [], total_issuance := 1, owner := 0, data := () }
      (by rfl) (by rfl) (by decide)
  · exact (c9_destroy_class_contract statePostMint 1 0).2.1
      { metadata := [], total_issuance := 1, owner := 0, data := () }
      (by rfl) (by decide)
  · exact (c9_destroy_class_contract emptyState 0 0).1 (by rfl)

/-- C10: frame property of transfer.  Whatever the arguments and whether
the call succeeds or fails, the post-call state (applyTransfer, which is the
pre-state on error) has the same NextClassId, the same NextTokenId table and
the same Classes table (total_issuance included); Tokens lookups at any
other token and TokensByOwner lookups at any key other than the sender and
recipient pair of the addressed token are unchanged. -/
theorem c10_transfer_frame (s : NftState) (fr toAcc : Nat)
    (tok : Nat × Nat) (p : Nat) :
    (applyTransfer s fr toAcc tok p).nextClassId = s.nextClassId ∧
    (applyTransfer s fr toAcc tok p).nextTokenId = s.nextTokenId ∧
    (applyTransfer s fr toAcc tok p).classes = s.classes ∧
    (∀ t2, t2 ≠ tok →
      alookup (applyTransfer s fr toAcc tok p).tokens t2 =
        alookup s.tokens t2) ∧
    (∀ a t2, (a, t2) ≠ (fr, tok) → (a, t2) ≠ (toAcc, tok) →
      alookup (applyTransfer s fr toAcc tok p).tokensByOwner (a, t2) =
        alookup s.tokensByOwner (a, t2)) := by
  have key : ∀ s2, transfer s fr toAcc tok p = .ok s2 →
      s2.nextClassId = s.nextClassId ∧ s2.nextTokenId = s.nextTokenId ∧
      s2.classes = s.classes ∧
      (∀ t2, t2 ≠ tok → alookup s2.tokens t2 = alookup s.tokens t2) ∧
      (∀ a t2, (a, t2) ≠ (fr, tok) → (a, t2) ≠ (toAcc, tok) →
        alookup s2.tokensByOwner (a, t2) =
          alookup s.tokensByOwner (a, t2)) := by
    intro s2 h2
    cases hl : alookup s.tokens tok with
    | none => simp [transfer, hl] at h2
    | some info =>
      by_cases hm : fr ∈ info.owners
      · by_cases hft : fr = toAcc
        · subst hft
          simp [transfer, hl, hm] at h2
          subst h2
          refine ⟨rfl, rfl, rfl, ?_, ?_⟩
          · intro t2 hne
            exact alookup_ainsert_ne _ _ _ _ hne
          · intro a t2 _ _
            rfl
        · simp [transfer, hl, hm, hft] at h2
          subst h2
          refine ⟨rfl, rfl, rfl, ?_, ?_⟩
          · intro t2 hne
            exact alookup_ainsert_ne _ _ _ _ hne
          · intro a t2 h1 hrec
            show alookup (if _ then _ else _) _ = _
            split
            · rw [alookup_ainsert_ne _ _ _ _ h1,
                  alookup_ainsert_ne _ _ _ _ hrec]
            · rfl
      · simp [transfer, hl, hm] at h2
  cases h : transfer s fr toAcc tok p with
  | ok s2 =>
    have hk := key s2 h
    simpa [applyTransfer, h] using hk
  | error e =>
    simp [applyTransfer, h]

/-- C10 witness: frame equalities of the 20-percent transfer from the
post-mint state, at the untouched token (0,1), the untouched Classes table,
and the untouched TokensByOwner key of account 5. -/
theorem c10_transfer_frame_witness :
    alookup (applyTransfer statePostMint 1 0 (0, 0) 20).tokens (0, 1) =
      alookup statePostMint.tokens (0, 1) ∧
    (applyTransfer statePostMint 1 0 (0, 0) 20).classes =
      statePostMint.classes ∧
    alookup (applyTransfer statePostMint 1 0 (0, 0) 20).tokensByOwner
        (5, (0, 0)) =
      alookup statePostMint.tokensByOwner (5, (0, 0)) := by
  have h := c10_transfer_frame statePostMint 1 0 (0, 0) 20
  exact ⟨h.2.2.2.1 (0, 1) (by decide), h.2.2.1,
    h.2.2.2.2 5 (0, 0) (by decide) (by decide)⟩

end BaseNft
